import Mathlib

/-!
Shallow embedding of the query-composition, execution, pagination and
caching logic of `code_challenge.py` (a Streamlit dashboard script), together
with theorems settling the specification claims about it.
-/

/-- A universe of Python runtime values sufficient for the dynamically typed
arguments that the functions of the script receive: strings, integers,
booleans, `None`, tuples and lists. -/
inductive PyVal where
  | str : String → PyVal
  | int : Int → PyVal
  | bool : Bool → PyVal
  | pynone : PyVal
  | tuple : List PyVal → PyVal
  | list : List PyVal → PyVal

/-- The single-quote character, used by Python `repr` of strings. -/
def sqChar : Char := Char.ofNat 39

/-- The double-quote character. -/
def dqChar : Char := Char.ofNat 34

/-- Escape one character of a string for Python `repr`, given the chosen
surrounding quote character `q` (printable-ASCII model of CPython behaviour:
backslash, the quote, newline, tab and carriage return are escaped). -/
def pyEscapeChar (q : Char) (c : Char) : String :=
  if c = Char.ofNat 92 then "\\\\"
  else if c = q then "\\" ++ String.singleton q
  else if c = Char.ofNat 10 then "\\n"
  else if c = Char.ofNat 9 then "\\t"
  else if c = Char.ofNat 13 then "\\r"
  else String.singleton c

/-- Python `repr` of a string: single-quoted, unless the string contains a
single quote and no double quote, in which case double-quoted. -/
def pyReprString (s : String) : String :=
  let q := if s.contains sqChar ∧ ¬ s.contains dqChar then dqChar else sqChar
  String.singleton q ++ String.join (s.toList.map (pyEscapeChar q)) ++ String.singleton q

mutual

/-- Python `repr` of a value. -/
def pyRepr : PyVal → String
  | .str s => pyReprString s
  | .int n => toString n
  | .bool b => if b then "True" else "False"
  | .pynone => "None"
  | .tuple xs =>
      "(" ++ String.intercalate ", " (pyReprList xs)
          ++ (if xs.length = 1 then ",)" else ")")
  | .list xs => "[" ++ String.intercalate ", " (pyReprList xs) ++ "]"

/-- `repr` of each element of a Python list/tuple. -/
def pyReprList : List PyVal → List String
  | [] => []
  | x :: xs => pyRepr x :: pyReprList xs

end

/-- Python `str` of a value, as used by f-string interpolation: the string
itself for strings, `repr` otherwise. -/
def pyStr : PyVal → String
  | .str s => s
  | v => pyRepr v

/-- `build_qry(tup)`: raises ValueError unless `tup` is a tuple of length 2,
otherwise destructures it as `(name, query)` and returns the f-string
`f"\x7bname\x7d AS (\x7bquery\x7d)"`. -/
def build_qry (tup : PyVal) : Except String String :=
  match tup with
  | .tuple [name, query] => .ok (pyStr name ++ " AS (" ++ pyStr query ++ ")")
  | _ => .error "Input must be a tuple with two elements: (alias, query)."

/-- Whether a Python value is a tuple of length 2 (the per-element check of
`build_seq_qrys`). -/
def is2tuple : PyVal → Bool
  | .tuple [_, _] => true
  | _ => false

/-- The list comprehension `[build_qry(t) for t in list_queries]`: any
exception raised by `build_qry` propagates. -/
def build_qry_list : List PyVal → Except String (List String)
  | [] => .ok []
  | t :: ts => do
      let s ← build_qry t
      let rest ← build_qry_list ts
      return s :: rest

/-- `build_seq_qrys(list_queries)`: raises ValueError unless the argument is a
list whose every element is a 2-tuple; otherwise returns
`",".join([build_qry(t) for t in list_queries])`. -/
def build_seq_qrys (list_queries : PyVal) : Except String String :=
  match list_queries with
  | .list xs =>
      if xs.all is2tuple then do
        let strs ← build_qry_list xs
        return String.intercalate "," strs
      else .error "Input must be a list of tuples with two elements each: (alias, query)."
  | _ => .error "Input must be a list of tuples with two elements each: (alias, query)."

/-- `build_CTE(list_queries, return_qry)`: raises ValueError unless
`return_qry` is a string; then computes `build_seq_qrys(list_queries)`
(exceptions propagate) and returns `f"WITH \x7bseq_qrys\x7d \x7breturn_qry\x7d;"`. -/
def build_CTE (list_queries : PyVal) (return_qry : PyVal) : Except String String :=
  match return_qry with
  | .str rq => (build_seq_qrys list_queries).map (fun seq => "WITH " ++ seq ++ " " ++ rq ++ ";")
  | _ => .error "return_qry must be a string."

/-- A row of a Result Table. -/
abbrev Row := List Int

/-- A Result Table (pandas DataFrame): an ordered list of rows.
`pd.DataFrame()` is the empty list. -/
abbrev DF := List Row

/-- The outcome of `fetch_data`: the messages reported to the user surface via
`st.error`, and the returned Result Table. -/
structure FetchResult where
  uiErrors : List String
  result : DF
deriving DecidableEq

/-- `fetch_data(query)`: raises ValueError if `query` is not a string;
otherwise calls the warehouse (`session.sql(query).to_pandas()`, modelled as
the ambient function `warehouse`) inside try/except — on success the resulting
table is returned, on an execution error the message
`f"Error executing query: \x7be\x7d"` is shown with `st.error` and an empty
DataFrame is returned instead of propagating the exception. -/
def fetch_data (warehouse : String → Except String DF) (query : PyVal) :
    Except String FetchResult :=
  match query with
  | .str s =>
      match warehouse s with
      | .ok df => .ok ⟨[], df⟩
      | .error e => .ok ⟨["Error executing query: " ++ e], []⟩
  | _ => .error "Query must be a string."

/-- `get_query_result(query_list, result_query)`:
`fetch_data(build_CTE(query_list, result_query))`; exceptions raised by
`build_CTE` propagate. -/
def get_query_result (warehouse : String → Except String DF)
    (query_list result_query : PyVal) : Except String FetchResult :=
  (build_CTE query_list result_query).bind (fun q => fetch_data warehouse (.str q))

/-- `page_size = 5` in `show_grid`. -/
def page_size : Nat := 5

/-- `total_pages = len(df) // page_size` in `show_grid`. -/
def total_pages (df : DF) : Nat := df.length / page_size

/-- The paginated view of `show_grid`: `st.number_input` only admits page
numbers in `[1, total_pages + 1]` (modelled as `none` outside that range); for
an admissible page the displayed slice is
`df.iloc[(page-1)*page_size : (page-1)*page_size + page_size]`. -/
def show_grid (df : DF) (page_number : Nat) : Option DF :=
  if 1 ≤ page_number ∧ page_number ≤ total_pages df + 1 then
    some ((df.drop ((page_number - 1) * page_size)).take page_size)
  else none

/-- Streamlit session state: an insertion-ordered mapping from names to
cached Result Tables. -/
abbrev SessionState := List (String × DF)

/-- Membership/lookup in `st.session_state`. -/
def lookup_state (state : SessionState) (k : String) : Option DF :=
  (state.find? (fun p => p.1 == k)).map Prod.snd

/-- `cache_df(df_name, df)`: stores `df` under `df_name` in
`st.session_state` only if the name is not already present
(`if df_name not in st.session_state`). -/
def cache_df (state : SessionState) (df_name : String) (df : DF) : SessionState :=
  if (lookup_state state df_name).isSome then state else state ++ [(df_name, df)]

/-- A fragment list of (alias, body) string pairs, as the Python value the
composer receives: a list of 2-tuples of strings. -/
def pyFrags (frags : List (String × String)) : PyVal :=
  .list (frags.map (fun p => .tuple [.str p.1, .str p.2]))

/-- The rendering the specification describes for a fragment list: each pair
as `alias AS (body)`, joined with `,`. -/
def seqStr (frags : List (String × String)) : String :=
  String.intercalate "," (frags.map (fun p => p.1 ++ " AS (" ++ p.2 ++ ")"))

lemma build_qry_list_strings (frags : List (String × String)) :
    build_qry_list (frags.map (fun p => .tuple [.str p.1, .str p.2]))
      = .ok (frags.map (fun p => p.1 ++ " AS (" ++ p.2 ++ ")")) := by
  induction frags with
  | nil => rfl
  | cons p ps ih => simp [build_qry_list, build_qry, pyStr, ih]; rfl

lemma build_seq_qrys_strings (frags : List (String × String)) :
    build_seq_qrys (pyFrags frags) = .ok (seqStr frags) := by
  have hall : (frags.map (fun p => PyVal.tuple [.str p.1, .str p.2])).all is2tuple = true := by
    induction frags with
    | nil => rfl
    | cons p ps ih => simpa [is2tuple] using ih
  simp [build_seq_qrys, pyFrags, hall, build_qry_list_strings, seqStr]

lemma lookup_state_append_of_some (s : SessionState) (k : String) (t : DF)
    (h : lookup_state s k = some t) (l : SessionState) :
    lookup_state (s ++ l) k = some t := by
  induction s with
  | nil => simp [lookup_state] at h
  | cons p ps ih =>
      unfold lookup_state at h ⊢
      by_cases hk : p.1 == k
      · simpa [List.find?, hk] using h
      · simp only [List.cons_append, List.find?, hk] at h ⊢
        exact ih h

lemma lookup_state_append_of_none (s : SessionState) (k : String) (t : DF)
    (h : lookup_state s k = none) :
    lookup_state (s ++ [(k, t)]) k = some t := by
  induction s with
  | nil => simp [lookup_state, List.find?]
  | cons p ps ih =>
      unfold lookup_state at h ⊢
      by_cases hk : p.1 == k
      · simp [List.find?, hk] at h
      · simp only [List.cons_append, List.find?, hk] at h ⊢
        exact ih h

lemma cache_df_preserves (s : SessionState) (k : String) (t : DF)
    (h : lookup_state s k = some t) (k2 : String) (t2 : DF) :
    lookup_state (cache_df s k2 t2) k = some t := by
  unfold cache_df
  split
  · exact h
  · exact lookup_state_append_of_some s k t h _

lemma cache_df_foldl_preserves (ops : List (String × DF)) :
    ∀ (s : SessionState) (k : String) (t : DF), lookup_state s k = some t →
      lookup_state (ops.foldl (fun acc p => cache_df acc p.1 p.2) s) k = some t := by
  induction ops with
  | nil => exact fun _ _ _ h => h
  | cons p ps ih =>
      intro s k t h
      exact ih _ k t (cache_df_preserves s k t h p.1 p.2)

/-- Claim C1: for every list of (alias, body) fragments accepted by the
composer and every final query string, `build_CTE` returns exactly `WITH `
followed by the fragments each rendered as `alias AS (body)` joined with `,`,
a space, the final query, and a trailing `;`; in particular on
`[("A", "SELECT 1")]` and `SELECT * FROM A` it returns exactly
`WITH A AS (SELECT 1) SELECT * FROM A;`. -/
theorem build_CTE_formats (frags : List (String × String)) (finalq : String) :
    build_CTE (pyFrags frags) (.str finalq)
      = .ok ("WITH " ++ seqStr frags ++ " " ++ finalq ++ ";")
    ∧ build_CTE (.list [.tuple [.str "A", .str "SELECT 1"]]) (.str "SELECT * FROM A")
      = .ok "WITH A AS (SELECT 1) SELECT * FROM A;" := by
  refine ⟨?_, rfl⟩
  simp [build_CTE, build_seq_qrys_strings, Except.map]

/-- Claim C2, counterexample: `build_seq_qrys` does not fail on the empty
list — the membership check `all(...)` is vacuously true there — so it
returns the empty join, and `build_CTE([], "SELECT 1")` returns the string
`WITH  SELECT 1;` rather than raising. -/
theorem build_seq_qrys_empty_accepted :
    build_seq_qrys (.list []) = .ok ""
    ∧ build_CTE (.list []) (.str "SELECT 1") = .ok "WITH  SELECT 1;"
    ∧ ∀ e, build_CTE (.list []) (.str "SELECT 1") ≠ .error e := by
  refine ⟨rfl, rfl, ?_⟩
  intro e h
  rw [show build_CTE (.list []) (.str "SELECT 1") = .ok "WITH  SELECT 1;" from rfl] at h
  exact Except.noConfusion h

/-- Claim C2, amended: `build_seq_qrys` accepts the empty fragment list and
returns the empty string, so `build_CTE` applied to the empty list and a
final query string returns `WITH ` + `""` + ` ` + finalQuery + `;` (with two
consecutive spaces) instead of failing with InvalidArgument. -/
theorem build_CTE_empty_list (rq : String) :
    build_seq_qrys (.list []) = .ok ""
    ∧ build_CTE (.list []) (.str rq) = .ok ("WITH " ++ "" ++ " " ++ rq ++ ";") :=
  ⟨rfl, rfl⟩

/-- The 12-row Result Table of the pagination claim. -/
def df12 : DF := (List.range 12).map (fun i => [(i : Int)])

/-- Claim C3, counterexample: for the 12-row table with `page_size = 5`,
`total_pages = 12 // 5 = 2`, so the allowed page bound is
`[1, total_pages + 1] = [1, 3]`: page 4 is NOT within the allowed bound, and
`show_grid` admits no slice for it. -/
theorem show_grid_df12_page4_out_of_bound :
    total_pages df12 = 2
    ∧ ¬ (4 ≤ total_pages df12 + 1)
    ∧ show_grid df12 4 = none := by
  refine ⟨rfl, by decide, rfl⟩

/-- Claim C3, amended: for the 12-row table with `page_size = 5`, pages 1, 2
and 3 yield slices of 5, 5 and 2 rows respectively; page 4 is outside the
allowed bound `[1, 3]` and is not selectable (it yields no slice, rather than
an empty one). -/
theorem show_grid_df12_pages :
    (show_grid df12 1).map List.length = some 5
    ∧ (show_grid df12 2).map List.length = some 5
    ∧ (show_grid df12 3).map List.length = some 2
    ∧ show_grid df12 4 = none :=
  ⟨rfl, rfl, rfl, rfl⟩

/-- Claim C4, counterexample: `build_qry` validates only that its argument is
a 2-tuple; it accepts an empty alias and a non-string body, returning a
formatted fragment instead of raising. -/
theorem build_qry_no_alias_body_validation :
    build_qry (.tuple [.str "", .str "SELECT 1"]) = .ok " AS (SELECT 1)"
    ∧ build_qry (.tuple [.str "A", .int 5]) = .ok "A AS (5)"
    ∧ ∀ e, build_qry (.tuple [.str "", .str "SELECT 1"]) ≠ .error e := by
  refine ⟨rfl, rfl, ?_⟩
  intro e h
  rw [show build_qry (.tuple [.str "", .str "SELECT 1"]) = .ok " AS (SELECT 1)" from rfl] at h
  exact Except.noConfusion h

/-- Claim C4, amended: `build_qry` raises ValueError exactly when its input is
not a 2-element tuple; any 2-tuple — including one with an empty alias or a
non-string body — is formatted as `alias AS (body)` via f-string conversion
of the two components. -/
theorem build_qry_spec (v : PyVal) :
    (∀ a b, v = .tuple [a, b] → build_qry v = .ok (pyStr a ++ " AS (" ++ pyStr b ++ ")"))
    ∧ (is2tuple v = false →
        build_qry v = .error "Input must be a tuple with two elements: (alias, query).") := by
  constructor
  · rintro a b rfl
    rfl
  · intro h
    cases v with
    | tuple xs =>
        match xs with
        | [] => rfl
        | [_] => rfl
        | [_, _] => simp [is2tuple] at h
        | _ :: _ :: _ :: _ => rfl
    | str s => rfl
    | int n => rfl
    | bool b => rfl
    | pynone => rfl
    | list xs => rfl

/-- Witness for C4 amended: the empty alias with a non-string body is
accepted and formatted, and a non-tuple is rejected. -/
theorem build_qry_spec_witness :
    build_qry (.tuple [.str "", .int 5]) = .ok " AS (5)"
    ∧ build_qry (.str "x") = .error "Input must be a tuple with two elements: (alias, query)." :=
  ⟨((build_qry_spec (.tuple [.str "", .int 5])).1 (.str "") (.int 5) rfl).trans rfl,
   (build_qry_spec (.str "x")).2 rfl⟩

/-- Claim C5, counterexample: the empty string IS a string, so the
`isinstance(return_qry, str)` guard of `build_CTE` passes and the call with
an empty final query returns a composed statement instead of raising. -/
theorem build_CTE_empty_final_accepted :
    build_CTE (.list [.tuple [.str "A", .str "SELECT 1"]]) (.str "")
      = .ok "WITH A AS (SELECT 1) ;"
    ∧ ∀ e, build_CTE (.list [.tuple [.str "A", .str "SELECT 1"]]) (.str "") ≠ .error e := by
  refine ⟨rfl, ?_⟩
  intro e h
  rw [show build_CTE (.list [.tuple [.str "A", .str "SELECT 1"]]) (.str "")
      = .ok "WITH A AS (SELECT 1) ;" from rfl] at h
  exact Except.noConfusion h

/-- Claim C5, amended: `build_CTE` raises only when the final query is not a
string; the empty string is accepted and yields `WITH <fragments> ;`, for
every fragment list of string pairs. -/
theorem build_CTE_final_check (frags : List (String × String)) :
    build_CTE (pyFrags frags) (.str "") = .ok ("WITH " ++ seqStr frags ++ " " ++ "" ++ ";")
    ∧ build_CTE (pyFrags frags) .pynone = .error "return_qry must be a string." := by
  constructor
  · simp [build_CTE, build_seq_qrys_strings, Except.map]
  · rfl

/-- Claim C6: for every query string, when the warehouse call inside
`fetch_data` raises an execution error, `fetch_data` does not propagate the
fault: it reports the error message to the user surface and returns an empty
Result Table; consequently composing fragments with `get_query_result` and
then failing at execution yields an empty Result Table, not a raised
exception. -/
theorem fetch_data_contains_errors (warehouse : String → Except String DF) :
    (∀ q e, warehouse q = .error e →
        fetch_data warehouse (.str q) = .ok ⟨["Error executing query: " ++ e], []⟩)
    ∧ (∀ frags finalq cte e,
        build_CTE (pyFrags frags) (.str finalq) = .ok cte →
        warehouse cte = .error e →
        get_query_result warehouse (pyFrags frags) (.str finalq)
          = .ok ⟨["Error executing query: " ++ e], []⟩) := by
  constructor
  · intro q e h
    simp [fetch_data, h]
  · intro frags finalq cte e hb hw
    simp [get_query_result, hb, fetch_data, hw, Except.bind]

/-- A warehouse stub whose every call fails. -/
def warehouse_fail : String → Except String DF := fun _ => .error "boom"

/-- Witness for C6: with an always-failing warehouse, both a direct fetch and
a composed CTE fetch return an empty table with the error reported. -/
theorem fetch_data_contains_errors_witness :
    fetch_data warehouse_fail (.str "SELECT 1")
      = .ok ⟨["Error executing query: boom"], []⟩
    ∧ get_query_result warehouse_fail (pyFrags [("A", "SELECT 1")]) (.str "SELECT * FROM A")
      = .ok ⟨["Error executing query: boom"], []⟩ :=
  ⟨((fetch_data_contains_errors warehouse_fail).1 "SELECT 1" "boom" rfl).trans rfl,
   ((fetch_data_contains_errors warehouse_fail).2 [("A", "SELECT 1")] "SELECT * FROM A"
      "WITH A AS (SELECT 1) SELECT * FROM A;" "boom" rfl rfl).trans rfl⟩

/-- Claim C7: `show_grid` computes `total_pages = len(df) // page_size`,
admits exactly the 1-based pages in `[1, total_pages + 1]`, and for an
admissible page displays exactly the row slice
`[(page-1)*page_size, page*page_size)`; when the row count is an exact
multiple of the page size, page `total_pages + 1` is selectable and yields an
empty slice. -/
theorem show_grid_pagination (df : DF) (page : Nat) :
    total_pages df = df.length / page_size
    ∧ ((show_grid df page).isSome ↔ (1 ≤ page ∧ page ≤ total_pages df + 1))
    ∧ (1 ≤ page → page ≤ total_pages df + 1 →
        ∃ shown, show_grid df page = some shown
          ∧ shown.length = min page_size (df.length - (page - 1) * page_size)
          ∧ ∀ i : Nat, i < page_size →
              shown[i]? = df[(page - 1) * page_size + i]?)
    ∧ (∀ k, df.length = k * page_size → show_grid df (k + 1) = some []) := by
  refine ⟨rfl, ?_, ?_, ?_⟩
  · by_cases hp : (1 ≤ page ∧ page ≤ total_pages df + 1) <;> simp [show_grid, hp]
  · intro h1 h2
    refine ⟨(df.drop ((page - 1) * page_size)).take page_size, ?_, ?_, ?_⟩
    · simp [show_grid, h1, h2]
    · simp [List.length_take, List.length_drop]
    · intro i hi
      rw [List.getElem?_take_of_lt hi, List.getElem?_drop]
  · intro k hk
    have h2 : k + 1 ≤ total_pages df + 1 := by
      have : total_pages df = k := by
        simp [total_pages, hk, Nat.mul_div_cancel k (show 0 < page_size by decide)]
      omega
    have hdrop : df.drop ((k + 1 - 1) * page_size) = [] := by
      have hlen : (k + 1 - 1) * page_size = df.length := by simp [hk]
      rw [hlen, List.drop_length]
    simp [show_grid, h2, hdrop]
    exact Or.inr (Nat.le_of_eq hk)

/-- A 10-row Result Table: an exact multiple of the page size. -/
def df10 : DF := (List.range 10).map (fun i => [(i : Int)])

/-- Witness for C7: on the 10-row table page 3 = total_pages + 1 is
admissible and shows the empty slice. -/
theorem show_grid_pagination_witness :
    show_grid df10 3 = some [] :=
  (show_grid_pagination df10 3).2.2.2 2 rfl

/-- Claim C8: the Result Cache is write-once per key: writing twice under the
same key keeps the first table, and once a key is present its table is not
changed by any later sequence of `cache_df` calls. -/
theorem cache_df_write_once (s : SessionState) (k : String) (t t1 t2 : DF) :
    (lookup_state s k = none →
        lookup_state (cache_df (cache_df s k t1) k t2) k = some t1)
    ∧ (lookup_state s k = some t →
        ∀ ops : List (String × DF),
          lookup_state (ops.foldl (fun acc p => cache_df acc p.1 p.2) s) k = some t) := by
  constructor
  · intro h
    have h1 : lookup_state (cache_df s k t1) k = some t1 := by
      have hc : cache_df s k t1 = s ++ [(k, t1)] := by simp [cache_df, h]
      rw [hc]
      exact lookup_state_append_of_none s k t1 h
    exact cache_df_preserves _ k t1 h1 k t2
  · intro h ops
    exact cache_df_foldl_preserves ops s k t h

/-- Witness for C8: caching twice under key `k` in an empty session keeps the
first table. -/
theorem cache_df_write_once_witness :
    lookup_state (cache_df (cache_df [] "k" [[1]]) "k" [[2]]) "k" = some [[1]] :=
  (cache_df_write_once [] "k" [] [[1]] [[2]]).1 rfl

/-- Claim C9 (implicit): `fetch_data` raises ValueError with message
`Query must be a string.` on every non-string argument, independently of the
warehouse — so the warehouse is never contacted with a non-string query. -/
theorem fetch_data_rejects_nonstring (v : PyVal) (h : ∀ s, v ≠ .str s) :
    ∀ warehouse : String → Except String DF,
      fetch_data warehouse v = .error "Query must be a string." := by
  intro warehouse
  cases v with
  | str s => exact absurd rfl (h s)
  | int n => rfl
  | bool b => rfl
  | pynone => rfl
  | tuple xs => rfl
  | list xs => rfl

/-- Witness for C9: an integer query is rejected. -/
theorem fetch_data_rejects_nonstring_witness :
    fetch_data (fun _ => .ok []) (.int 1) = .error "Query must be a string." :=
  fetch_data_rejects_nonstring (.int 1) (fun _ hs => PyVal.noConfusion hs) (fun _ => .ok [])

/-- Claim C10 (implicit): for every Result Table with fewer rows than the
page size (the empty table included), `total_pages = 0`, the only admissible
page number is 1, and the displayed slice is the entire table. -/
theorem show_grid_small (df : DF) (h : df.length < page_size) :
    total_pages df = 0
    ∧ (∀ page, (show_grid df page).isSome ↔ page = 1)
    ∧ show_grid df 1 = some df := by
  have h0 : total_pages df = 0 := Nat.div_eq_of_lt h
  refine ⟨h0, ?_, ?_⟩
  · intro page
    unfold show_grid
    rw [h0]
    by_cases hp : (1 ≤ page ∧ page ≤ 0 + 1) <;> simp [hp] <;> omega
  · simp [show_grid, h0, List.take_of_length_le (Nat.le_of_lt h)]

/-- Witness for C10: a 1-row table has a single admissible page showing the
whole table. -/
theorem show_grid_small_witness :
    show_grid [[1]] 1 = some [[1]] :=
  (show_grid_small [[1]] (by decide)).2.2
